import Mathlib

/-!
Shallow embedding of the sign-language capture widget in
src/src/components/sign.jsx.  The component state (React useState hooks and
refs) is modelled as a record, and every handler in the source becomes a
state transformer.  Asynchronous effects (camera acquisition, frame encode
callbacks, the network call) are modelled as events of a step function;
network calls and console messages are accumulated in the state so that
trace-level claims (number of calls issued, local error reports) can be
stated.
-/

namespace Sign

/-- The fixed instruction prompt sent as the first part of every request
(constant HARDCODED_PROMPT in the source). -/
def HARDCODED_PROMPT : String :=
  "Analyze the provided sequence of images or video frames depicting sign language gestures. Your task is to:\n\n1. Interpret the signs accurately, considering:\n   - Hand shapes, movements, and positions\n   - Facial expressions and body language\n   - Any contextual clues within the images\n\n2. Translate the signs into natural, conversational English that captures:\n   - The literal meaning of the signs\n   - The underlying emotion and tone\n   - Any cultural nuances specific to the sign language being used\n\n3. Formulate a response as if you\x27re engaged in a real conversation:\n   - Use a friendly, approachable tone\n   - Reflect the emotion conveyed in the signs\n   - Keep responses concise but natural-sounding\n\n4. If the visual input is unclear or insufficient:\n   - Politely mention which aspects are ambiguous\n   - Suggest that additional images or video could help with a more accurate interpretation\n   - Provide your best interpretation based on available information\n\n5. Be aware of and respect:\n   - Different sign language variants (e.g., ASL, BSL, Auslan)\n   - The importance of non-manual markers in conveying meaning\n   - The three-dimensional nature of sign language when interpreting 2D images\n\n6. If you recognize specific signs or phrases, mention them in your explanation to demonstrate your reasoning.\n\n7. If the signs seem to be part of a longer conversation, acknowledge this and provide context for your response.\n\nRemember, the goal is to bridge communication effectively, ensuring the essence of the signed message is conveyed accurately and naturally in your response."

/-- One part of an interpretation request: the instruction text, or an inline
image part carrying base64 data and a MIME type (the objects built by
frames.map in sendVideoSequenceToGoogleGenerativeAI). -/
inductive Part where
  | text (s : String)
  | inlineData (data : String) (mimeType : String)
  deriving DecidableEq, Repr

/-- A request to the interpretation service: the ordered list of parts passed
to model.generateContent. -/
abbrev Request := List Part

/-- The outcome of the single network call: the service returns text, rejects
with a structured error envelope (error.response.data.error.message), or
fails in any other way (error.message). -/
inductive Outcome where
  | success (t : String)
  | structuredFailure (m : String)
  | unstructuredFailure (m : String)
  deriving DecidableEq, Repr

/-- The component state: the useState hooks and refs of
SignLanguageConversation, plus bookkeeping for the embedding.
`cameraResolved` records that the one setupCamera call from the mount effect
has settled; `streamBound` models videoRef.current.srcObject being set;
`pendingCaptures` counts captureFrame invocations whose toBlob/FileReader
callback has not yet fired; `calls` accumulates every network call issued and
`logs` every console.error message, so traces can count them. -/
structure CaptureSession where
  cameraResolved : Bool
  streamBound : Bool
  isRecording : Bool
  isProcessing : Bool
  isSending : Bool
  frameSequence : List String
  error : Option String
  response : String
  timerArmed : Bool
  pendingCaptures : Nat
  calls : List Request
  logs : List String
  deriving DecidableEq, Repr

/-- The state at component mount: all flags false, no frames, no error, empty
response. -/
def initialState : CaptureSession where
  cameraResolved := false
  streamBound := false
  isRecording := false
  isProcessing := false
  isSending := false
  frameSequence := []
  error := none
  response := ""
  timerArmed := false
  pendingCaptures := 0
  calls := []
  logs := []

/-- The user-facing message set by setupCamera when getUserMedia fails. -/
def deviceAccessErrorMsg : String :=
  "Error: Unable to access camera. Please check your permissions and try again."

/-- The console message logged on the empty-batch early return. -/
def emptyBatchLogMsg : String :=
  "Frame sequence must be present to send to the API"

/-- The message set when the service reports a structured error envelope. -/
def structuredErrorMsg (m : String) : String :=
  "Error processing sign language: " ++ m ++ ". Please try again."

/-- The message set on any other submission failure. -/
def unexpectedErrorMsg (m : String) : String :=
  "Unexpected error: " ++ m ++ ". Please try again."

/-- setupCamera resolving successfully: the stream is stored and bound to the
video element.  The mount effect runs it once, so a settled call is a no-op. -/
def setupCameraOk (s : CaptureSession) : CaptureSession :=
  if s.cameraResolved then s
  else
    { s with
        cameraResolved := true
        streamBound := true }

/-- setupCamera failing (permission denied or no device): logs the error and
sets the user-facing message; no stream is bound and nothing else changes. -/
def setupCameraFail (s : CaptureSession) : CaptureSession :=
  if s.cameraResolved then s
  else
    { s with
        cameraResolved := true
        logs := s.logs ++ ["Error accessing camera:"]
        error := some deviceAccessErrorMsg }

/-- startRecording: guarded on videoRef.current.srcObject being set.  Sets
isRecording, clears the error, clears frameSequence, and calls captureFrame
once (one pending encode); the isRecording effect then arms the interval. -/
def startRecording (s : CaptureSession) : CaptureSession :=
  if s.streamBound then
    { s with
        isRecording := true
        error := none
        frameSequence := []
        pendingCaptures := s.pendingCaptures + 1
        timerArmed := true }
  else s

/-- One firing of the frameCaptureInterval timer: captureFrame draws the
current video frame and starts an asynchronous encode (toBlob + FileReader);
the frame is appended only when that callback completes. -/
def timerTick (s : CaptureSession) : CaptureSession :=
  if s.timerArmed then
    { s with pendingCaptures := s.pendingCaptures + 1 }
  else s

/-- Completion of one pending encode callback: the base64 payload is appended
at the end of frameSequence (setFrameSequence (prevFrames =>
[...prevFrames, base64data])). -/
def encodeComplete (s : CaptureSession) (f : String) : CaptureSession :=
  if 0 < s.pendingCaptures then
    { s with
        frameSequence := s.frameSequence ++ [f]
        pendingCaptures := s.pendingCaptures - 1 }
  else s

/-- The body of sendVideoSequenceToGoogleGenerativeAI: takes the frames
argument and the outcome of the (at most one) network call.  Empty frames:
log and clear isProcessing, no call.  Otherwise set isSending, clear the
response, issue the one generateContent call with the prompt part followed by
the image parts, then either store the text, or set the structured or generic
error message; the finally block clears isProcessing and isSending. -/
def sendVideoSequenceToGoogleGenerativeAI (s : CaptureSession)
    (frames : List String) (o : Outcome) : CaptureSession :=
  if frames.isEmpty then
    { s with
        logs := s.logs ++ [emptyBatchLogMsg]
        isProcessing := false }
  else
    let s1 : CaptureSession :=
      { s with
          isSending := true
          response := "" }
    let s2 : CaptureSession :=
      { s1 with
          calls := s1.calls ++
            [Part.text HARDCODED_PROMPT ::
              frames.map (fun f => Part.inlineData f "image/png")] }
    let s3 : CaptureSession :=
      match o with
      | .success t => { s2 with response := t }
      | .structuredFailure m =>
          { s2 with
              logs := s2.logs ++ ["Error calling Google Generative AI API:",
                "API Response Error:"]
              error := some (structuredErrorMsg m) }
      | .unstructuredFailure m =>
          { s2 with
              logs := s2.logs ++ ["Error calling Google Generative AI API:"]
              error := some (unexpectedErrorMsg m) }
    { s3 with
        isProcessing := false
        isSending := false }

/-- The state right after stopRecording runs its synchronous part: clears
isRecording (which disarms the interval via the effect cleanup) and sets
isProcessing, before the submitter resolves. -/
def stopRecordingState (s : CaptureSession) : CaptureSession :=
  { s with
      isRecording := false
      timerArmed := false
      isProcessing := true }

/-- stopRecording: clears isRecording, sets isProcessing, and hands the
current frameSequence to the submitter. -/
def stopRecording (s : CaptureSession) (o : Outcome) : CaptureSession :=
  sendVideoSequenceToGoogleGenerativeAI (stopRecordingState s)
    (stopRecordingState s).frameSequence o

/-- The externally visible events of the component: the mount-time camera
request settling, the two user actions, a timer firing, and an encode
callback completing.  stopSubmit carries the outcome of the submission its
stop hands off. -/
inductive Event where
  | cameraOk
  | cameraFail
  | start
  | tick
  | encode (f : String)
  | stopSubmit (o : Outcome)
  deriving DecidableEq, Repr

/-- The step function of the component. -/
def step (s : CaptureSession) : Event → CaptureSession
  | .cameraOk => setupCameraOk s
  | .cameraFail => setupCameraFail s
  | .start => startRecording s
  | .tick => timerTick s
  | .encode f => encodeComplete s f
  | .stopSubmit o => stopRecording s o

/-- Runs a list of events from the mount state. -/
def run (l : List Event) : CaptureSession :=
  l.foldl step initialState

/-- A state the component can actually be in. -/
def Reachable (s : CaptureSession) : Prop :=
  ∃ l, run l = s

/-- Exactly one of the error and the result is non-empty. -/
def exactlyOneSet (s : CaptureSession) : Prop :=
  (s.response ≠ "" ∧ s.error = none) ∨ (s.response = "" ∧ s.error ≠ none)

/-- A success outcome carries non-empty text (failures are unconstrained). -/
def successTextNonempty : Outcome → Prop
  | .success t => t ≠ ""
  | .structuredFailure _ => True
  | .unstructuredFailure _ => True

/-- The concrete trace of the HELLO scenario: camera granted, start (whose
immediate captureFrame encode completes as frame A), two timer ticks whose
encodes complete as frames B and C, then stop with the service returning
HELLO. -/
def scenarioC5 : List Event :=
  [Event.cameraOk, Event.start, Event.encode "A", Event.tick,
    Event.encode "B", Event.tick, Event.encode "C",
    Event.stopSubmit (Outcome.success "HELLO")]

/-! Helper lemmas shared by the claim theorems. -/

/-- The submitter never touches the frame sequence. -/
theorem send_frameSequence (s : CaptureSession) (fr : List String)
    (o : Outcome) :
    (sendVideoSequenceToGoogleGenerativeAI s fr o).frameSequence =
      s.frameSequence := by
  unfold sendVideoSequenceToGoogleGenerativeAI
  split
  · rfl
  · cases o <;> rfl

/-- The submitter never touches isRecording. -/
theorem send_isRecording (s : CaptureSession) (fr : List String)
    (o : Outcome) :
    (sendVideoSequenceToGoogleGenerativeAI s fr o).isRecording =
      s.isRecording := by
  unfold sendVideoSequenceToGoogleGenerativeAI
  split
  · rfl
  · cases o <;> rfl

/-- The submitter never touches streamBound. -/
theorem send_streamBound (s : CaptureSession) (fr : List String)
    (o : Outcome) :
    (sendVideoSequenceToGoogleGenerativeAI s fr o).streamBound =
      s.streamBound := by
  unfold sendVideoSequenceToGoogleGenerativeAI
  split
  · rfl
  · cases o <;> rfl

/-- The submitter never touches cameraResolved. -/
theorem send_cameraResolved (s : CaptureSession) (fr : List String)
    (o : Outcome) :
    (sendVideoSequenceToGoogleGenerativeAI s fr o).cameraResolved =
      s.cameraResolved := by
  unfold sendVideoSequenceToGoogleGenerativeAI
  split
  · rfl
  · cases o <;> rfl

/-- The submitter clears isProcessing on every path (the early return and the
finally block). -/
theorem send_isProcessing (s : CaptureSession) (fr : List String)
    (o : Outcome) :
    (sendVideoSequenceToGoogleGenerativeAI s fr o).isProcessing = false := by
  unfold sendVideoSequenceToGoogleGenerativeAI
  split
  · rfl
  · cases o <;> rfl

/-- The structural invariant maintained by every event: a recording session
has no error displayed and a bound stream, and a bound stream means the
camera request has settled. -/
def Inv (s : CaptureSession) : Prop :=
  (s.isRecording = true → s.error = none) ∧
  (s.isRecording = true → s.streamBound = true) ∧
  (s.streamBound = true → s.cameraResolved = true)

/-- Every event preserves the invariant. -/
theorem inv_step (s : CaptureSession) (e : Event) (h : Inv s) :
    Inv (step s e) := by
  obtain ⟨h1, h2, h3⟩ := h
  cases e with
  | cameraOk =>
    show Inv (setupCameraOk s)
    unfold setupCameraOk
    split
    · exact ⟨h1, h2, h3⟩
    · exact ⟨fun hr => h1 hr, fun _ => rfl, fun _ => rfl⟩
  | cameraFail =>
    show Inv (setupCameraFail s)
    unfold setupCameraFail
    split
    · exact ⟨h1, h2, h3⟩
    · rename_i hc
      exact ⟨fun hr => absurd (h3 (h2 hr)) hc, fun hr => h2 hr, fun _ => rfl⟩
  | start =>
    show Inv (startRecording s)
    unfold startRecording
    split
    · rename_i hb
      exact ⟨fun _ => rfl, fun _ => hb, fun _ => h3 hb⟩
    · exact ⟨h1, h2, h3⟩
  | tick =>
    show Inv (timerTick s)
    unfold timerTick
    split
    · exact ⟨fun hr => h1 hr, fun hr => h2 hr, fun hb => h3 hb⟩
    · exact ⟨h1, h2, h3⟩
  | encode f =>
    show Inv (encodeComplete s f)
    unfold encodeComplete
    split
    · exact ⟨fun hr => h1 hr, fun hr => h2 hr, fun hb => h3 hb⟩
    · exact ⟨h1, h2, h3⟩
  | stopSubmit o =>
    show Inv (stopRecording s o)
    refine ⟨fun hr => ?_, fun hr => ?_, fun hb => ?_⟩
    · simp [stopRecording, stopRecordingState, send_isRecording] at hr
    · simp [stopRecording, stopRecordingState, send_isRecording] at hr
    · simp only [stopRecording, stopRecordingState, send_streamBound] at hb
      simp only [stopRecording, stopRecordingState, send_cameraResolved]
      exact h3 hb

/-- The invariant holds along any event list. -/
theorem inv_foldl (l : List Event) :
    ∀ s : CaptureSession, Inv s → Inv (l.foldl step s) := by
  induction l with
  | nil => exact fun s h => h
  | cons e t ih => exact fun s h => ih (step s e) (inv_step s e h)

/-- The mount state satisfies the invariant. -/
theorem inv_initialState : Inv initialState := by
  refine ⟨fun h => ?_, fun h => ?_, fun h => ?_⟩ <;>
    simp [initialState] at h

/-- Every reachable state satisfies the invariant. -/
theorem reachable_inv (s : CaptureSession) (h : Reachable s) : Inv s := by
  obtain ⟨l, hl⟩ := h
  rw [← hl]
  exact inv_foldl l initialState inv_initialState

/-- While recording, no error is displayed (start cleared it and nothing in a
recording session sets it). -/
theorem reachable_recording_error_none (s : CaptureSession)
    (h : Reachable s) (hr : s.isRecording = true) : s.error = none :=
  (reachable_inv s h).1 hr

/-- A non-empty list has isEmpty false. -/
theorem isEmpty_false_of_ne_nil {α : Type} {l : List α} (h : l ≠ []) :
    l.isEmpty = false := by
  cases l with
  | nil => exact absurd rfl h
  | cons a t => rfl

/-- Claim C10: on the empty-batch early return of the submitter, the only
session-state change is clearing isProcessing; the error, the response, the
frame sequence, the sending flag (and the calls issued) are all unchanged,
with only the local console report appended. -/
theorem empty_path_only_clears_processing (s : CaptureSession) (o : Outcome) :
    sendVideoSequenceToGoogleGenerativeAI s [] o =
      { s with
          isProcessing := false
          logs := s.logs ++ [emptyBatchLogMsg] } := rfl

/-- Claim C1: a stop action taken with zero captured frames issues no network
call, reports the error locally (the console message), and short-circuits
with isProcessing cleared. -/
theorem stop_empty_no_call_reports_locally (s : CaptureSession) (o : Outcome)
    (h : s.frameSequence = []) :
    (step s (Event.stopSubmit o)).calls = s.calls ∧
    (step s (Event.stopSubmit o)).logs = s.logs ++ [emptyBatchLogMsg] ∧
    (step s (Event.stopSubmit o)).isProcessing = false := by
  refine ⟨?_, ?_, ?_⟩ <;>
    simp [step, stopRecording, stopRecordingState,
      sendVideoSequenceToGoogleGenerativeAI, h]

/-- Witness for C1 at a concrete reachable state with no captured frames. -/
theorem stop_empty_no_call_reports_locally_witness :
    (step (run [Event.cameraOk, Event.start])
        (Event.stopSubmit (Outcome.success "HELLO"))).calls =
      (run [Event.cameraOk, Event.start]).calls ∧
    (step (run [Event.cameraOk, Event.start])
        (Event.stopSubmit (Outcome.success "HELLO"))).logs =
      (run [Event.cameraOk, Event.start]).logs ++ [emptyBatchLogMsg] ∧
    (step (run [Event.cameraOk, Event.start])
        (Event.stopSubmit (Outcome.success "HELLO"))).isProcessing = false :=
  stop_empty_no_call_reports_locally (run [Event.cameraOk, Event.start])
    (Outcome.success "HELLO") rfl

/-- Claim C4: a failed submission of a non-empty batch is classified into
exactly one of two disjoint cases; a structured service error sets the
message extracted from the error envelope, any other failure sets the
generic unexpected-error message, and in both cases the error is set and the
response is left cleared. -/
theorem failure_classification (s : CaptureSession) (fr : List String)
    (m m' : String) (h : fr ≠ []) :
    ((sendVideoSequenceToGoogleGenerativeAI s fr
        (Outcome.structuredFailure m)).error = some (structuredErrorMsg m) ∧
      (sendVideoSequenceToGoogleGenerativeAI s fr
        (Outcome.structuredFailure m)).response = "") ∧
    ((sendVideoSequenceToGoogleGenerativeAI s fr
        (Outcome.unstructuredFailure m')).error = some (unexpectedErrorMsg m') ∧
      (sendVideoSequenceToGoogleGenerativeAI s fr
        (Outcome.unstructuredFailure m')).response = "") := by
  have hne : fr.isEmpty = false := isEmpty_false_of_ne_nil h
  refine ⟨⟨?_, ?_⟩, ⟨?_, ?_⟩⟩ <;>
    simp [sendVideoSequenceToGoogleGenerativeAI, hne]

/-- Witness for C4 at a concrete non-empty batch and concrete messages. -/
theorem failure_classification_witness :
    ((sendVideoSequenceToGoogleGenerativeAI initialState ["A"]
        (Outcome.structuredFailure "boom")).error =
          some (structuredErrorMsg "boom") ∧
      (sendVideoSequenceToGoogleGenerativeAI initialState ["A"]
        (Outcome.structuredFailure "boom")).response = "") ∧
    ((sendVideoSequenceToGoogleGenerativeAI initialState ["A"]
        (Outcome.unstructuredFailure "net")).error =
          some (unexpectedErrorMsg "net") ∧
      (sendVideoSequenceToGoogleGenerativeAI initialState ["A"]
        (Outcome.unstructuredFailure "net")).response = "") :=
  failure_classification initialState ["A"] "boom" "net" (by decide)

/-- Claim C7: submitting a non-empty frame sequence issues exactly one call,
whose payload is the fixed instruction-text part followed by one inline
image part per frame, in sequence order, each with the frame data and
mimeType image/png. -/
theorem request_payload_single_call (s : CaptureSession) (fr : List String)
    (o : Outcome) (h : fr ≠ []) :
    (sendVideoSequenceToGoogleGenerativeAI s fr o).calls =
      s.calls ++ [Part.text HARDCODED_PROMPT ::
        fr.map (fun f => Part.inlineData f "image/png")] := by
  have hne : fr.isEmpty = false := isEmpty_false_of_ne_nil h
  cases o <;> simp [sendVideoSequenceToGoogleGenerativeAI, hne]

/-- Witness for C7 at a concrete two-frame batch. -/
theorem request_payload_single_call_witness :
    (sendVideoSequenceToGoogleGenerativeAI initialState ["A", "B"]
        (Outcome.success "HELLO")).calls =
      initialState.calls ++ [Part.text HARDCODED_PROMPT ::
        List.map (fun f => Part.inlineData f "image/png") ["A", "B"]] :=
  request_payload_single_call initialState ["A", "B"]
    (Outcome.success "HELLO") (by decide)

/-- Claim C2: a successful submission from any reachable recording state with
a non-empty batch stores the returned text as the response and leaves the
error none (start cleared it and nothing set it since), so error and result
are never both non-empty afterward. -/
theorem success_sets_result_clears_error (s : CaptureSession) (t : String)
    (hr : Reachable s) (hrec : s.isRecording = true)
    (hf : s.frameSequence ≠ []) :
    (step s (Event.stopSubmit (Outcome.success t))).response = t ∧
    (step s (Event.stopSubmit (Outcome.success t))).error = none := by
  have herr : s.error = none := reachable_recording_error_none s hr hrec
  have hne : s.frameSequence.isEmpty = false := isEmpty_false_of_ne_nil hf
  refine ⟨?_, ?_⟩ <;>
    simp [step, stopRecording, stopRecordingState,
      sendVideoSequenceToGoogleGenerativeAI, hne, herr]

/-- Witness for C2 on the trace camera granted, start, one frame captured. -/
theorem success_sets_result_clears_error_witness :
    (step (run [Event.cameraOk, Event.start, Event.encode "A"])
        (Event.stopSubmit (Outcome.success "HELLO"))).response = "HELLO" ∧
    (step (run [Event.cameraOk, Event.start, Event.encode "A"])
        (Event.stopSubmit (Outcome.success "HELLO"))).error = none :=
  success_sets_result_clears_error
    (run [Event.cameraOk, Event.start, Event.encode "A"]) "HELLO"
    ⟨[Event.cameraOk, Event.start, Event.encode "A"], rfl⟩ rfl (by decide)

/-- Claim C3 counterexample: a stop with zero captured frames (camera
granted, start, immediate stop before any encode completed) ends with
isProcessing cleared while neither the response nor the error has been set,
so isProcessing does not stay true until exactly one of result or error is
set. -/
theorem empty_attempt_sets_neither_counterexample :
    (step (run [Event.cameraOk, Event.start])
        (Event.stopSubmit (Outcome.success "HELLO"))).isProcessing = false ∧
    (step (run [Event.cameraOk, Event.start])
        (Event.stopSubmit (Outcome.success "HELLO"))).response = "" ∧
    (step (run [Event.cameraOk, Event.start])
        (Event.stopSubmit (Outcome.success "HELLO"))).error = none ∧
    ¬ exactlyOneSet (step (run [Event.cameraOk, Event.start])
        (Event.stopSubmit (Outcome.success "HELLO"))) := by
  refine ⟨rfl, rfl, rfl, fun hx => ?_⟩
  rcases hx with ⟨hx1, _⟩ | ⟨_, hx2⟩
  · exact hx1 rfl
  · exact hx2 rfl

/-- Claim C3 as amended: isProcessing is set when stop runs and is cleared by
the end of every submission attempt; on a non-empty batch (with non-empty
success text) exactly one of response and error is set when it clears, while
the empty-batch early return clears it without setting either. -/
theorem processing_cleared_every_attempt (s : CaptureSession) (o : Outcome)
    (hr : Reachable s) (hrec : s.isRecording = true)
    (ht : successTextNonempty o) :
    (stopRecordingState s).isProcessing = true ∧
    (step s (Event.stopSubmit o)).isProcessing = false ∧
    (s.frameSequence ≠ [] →
      exactlyOneSet (step s (Event.stopSubmit o))) := by
  have herr : s.error = none := reachable_recording_error_none s hr hrec
  refine ⟨rfl, ?_, fun hf => ?_⟩
  · show (stopRecording s o).isProcessing = false
    unfold stopRecording
    exact send_isProcessing _ _ _
  · have hne : s.frameSequence.isEmpty = false := isEmpty_false_of_ne_nil hf
    show exactlyOneSet (stopRecording s o)
    cases o with
    | success t =>
      left
      constructor
      · simpa [stopRecording, stopRecordingState,
          sendVideoSequenceToGoogleGenerativeAI, hne] using ht
      · simp [stopRecording, stopRecordingState,
          sendVideoSequenceToGoogleGenerativeAI, hne, herr]
    | structuredFailure m =>
      right
      refine ⟨?_, ?_⟩ <;>
        simp [stopRecording, stopRecordingState,
          sendVideoSequenceToGoogleGenerativeAI, hne]
    | unstructuredFailure m =>
      right
      refine ⟨?_, ?_⟩ <;>
        simp [stopRecording, stopRecordingState,
          sendVideoSequenceToGoogleGenerativeAI, hne]

/-- Witness for the amended C3 on a one-frame batch with a structured
failure. -/
theorem processing_cleared_every_attempt_witness :
    (stopRecordingState
        (run [Event.cameraOk, Event.start, Event.encode "A"])).isProcessing =
      true ∧
    (step (run [Event.cameraOk, Event.start, Event.encode "A"])
        (Event.stopSubmit (Outcome.structuredFailure "boom"))).isProcessing =
      false ∧
    ((run [Event.cameraOk, Event.start, Event.encode "A"]).frameSequence ≠ [] →
      exactlyOneSet
        (step (run [Event.cameraOk, Event.start, Event.encode "A"])
          (Event.stopSubmit (Outcome.structuredFailure "boom")))) :=
  processing_cleared_every_attempt
    (run [Event.cameraOk, Event.start, Event.encode "A"])
    (Outcome.structuredFailure "boom")
    ⟨[Event.cameraOk, Event.start, Event.encode "A"], rfl⟩ rfl trivial

/-- Claim C5 counterexample: in the HELLO scenario the final state does have
the result HELLO and isProcessing false, but the frame sequence is not
discarded; it still holds the three frames (it is only reset at the next
start). -/
theorem scenario_hello_frames_not_discarded :
    (run scenarioC5).response = "HELLO" ∧
    (run scenarioC5).isProcessing = false ∧
    (run scenarioC5).frameSequence = ["A", "B", "C"] ∧
    (run scenarioC5).frameSequence ≠ [] := by
  refine ⟨rfl, rfl, rfl, fun h => ?_⟩
  rw [show (run scenarioC5).frameSequence = ["A", "B", "C"] from rfl] at h
  exact List.noConfusion h

/-- Claim C5 as amended: the HELLO scenario ends with result HELLO and
isProcessing false, the frame sequence still holding frames A, B, C; the
frames are discarded only by the next start action. -/
theorem scenario_hello_amended :
    (run scenarioC5).response = "HELLO" ∧
    (run scenarioC5).isProcessing = false ∧
    (run scenarioC5).frameSequence = ["A", "B", "C"] ∧
    (step (run scenarioC5) Event.start).frameSequence = [] :=
  ⟨rfl, rfl, rfl, rfl⟩

/-- Claim C6: start (with a bound stream) clears the frames, sets
isRecording, clears the prior error, immediately initiates one frame
capture, and arms the timer; and the submitter clears the prior response
before the next result is stored, so a successful submission shows exactly
the new text. -/
theorem start_resets_session (s u : CaptureSession) (fr : List String)
    (t : String) (hs : s.streamBound = true) (hfr : fr ≠ []) :
    (startRecording s).frameSequence = [] ∧
    (startRecording s).isRecording = true ∧
    (startRecording s).error = none ∧
    (startRecording s).pendingCaptures = s.pendingCaptures + 1 ∧
    (startRecording s).timerArmed = true ∧
    (sendVideoSequenceToGoogleGenerativeAI u fr
      (Outcome.success t)).response = t := by
  have hne : fr.isEmpty = false := isEmpty_false_of_ne_nil hfr
  refine ⟨?_, ?_, ?_, ?_, ?_, ?_⟩ <;>
    simp [startRecording, hs, sendVideoSequenceToGoogleGenerativeAI, hne]

/-- Witness for C6: start after a failed submission left an error and a
stale response. -/
theorem start_resets_session_witness :
    (startRecording (run [Event.cameraOk])).frameSequence = [] ∧
    (startRecording (run [Event.cameraOk])).isRecording = true ∧
    (startRecording (run [Event.cameraOk])).error = none ∧
    (startRecording (run [Event.cameraOk])).pendingCaptures =
      (run [Event.cameraOk]).pendingCaptures + 1 ∧
    (startRecording (run [Event.cameraOk])).timerArmed = true ∧
    (sendVideoSequenceToGoogleGenerativeAI initialState ["A"]
      (Outcome.success "HELLO")).response = "HELLO" :=
  start_resets_session (run [Event.cameraOk]) initialState ["A"] "HELLO"
    rfl (by decide)

/-- Claim C8: a completed encode appends exactly its one frame at the end of
the sequence (in callback-completion order), and no event other than start
ever removes, reorders or mutates frames already inserted; every step leaves
the existing frames as a prefix and appends at most one. -/
theorem frames_append_only (s : CaptureSession) (f : String) (e : Event)
    (hp : 0 < s.pendingCaptures) (he : e ≠ Event.start) :
    (encodeComplete s f).frameSequence = s.frameSequence ++ [f] ∧
    (step s e).frameSequence.take s.frameSequence.length = s.frameSequence ∧
    (step s e).frameSequence.length ≤ s.frameSequence.length + 1 := by
  refine ⟨by simp [encodeComplete, hp], ?_, ?_⟩
  · cases e with
    | start => exact absurd rfl he
    | cameraOk =>
      show ((setupCameraOk s).frameSequence).take s.frameSequence.length =
        s.frameSequence
      unfold setupCameraOk
      split <;> simp
    | cameraFail =>
      show ((setupCameraFail s).frameSequence).take s.frameSequence.length =
        s.frameSequence
      unfold setupCameraFail
      split <;> simp
    | tick =>
      show ((timerTick s).frameSequence).take s.frameSequence.length =
        s.frameSequence
      unfold timerTick
      split <;> simp
    | encode g =>
      show ((encodeComplete s g).frameSequence).take s.frameSequence.length =
        s.frameSequence
      unfold encodeComplete
      split <;> simp
    | stopSubmit o =>
      show ((stopRecording s o).frameSequence).take s.frameSequence.length =
        s.frameSequence
      rw [stopRecording, send_frameSequence]
      simp [stopRecordingState]
  · cases e with
    | start => exact absurd rfl he
    | cameraOk =>
      show (setupCameraOk s).frameSequence.length ≤
        s.frameSequence.length + 1
      unfold setupCameraOk
      split <;> simp
    | cameraFail =>
      show (setupCameraFail s).frameSequence.length ≤
        s.frameSequence.length + 1
      unfold setupCameraFail
      split <;> simp
    | tick =>
      show (timerTick s).frameSequence.length ≤ s.frameSequence.length + 1
      unfold timerTick
      split <;> simp
    | encode g =>
      show (encodeComplete s g).frameSequence.length ≤
        s.frameSequence.length + 1
      unfold encodeComplete
      split <;> simp
    | stopSubmit o =>
      show (stopRecording s o).frameSequence.length ≤
        s.frameSequence.length + 1
      rw [stopRecording, send_frameSequence]
      simp [stopRecordingState]

/-- Witness for C8 at a concrete state with one pending encode and a timer
tick as the other event. -/
theorem frames_append_only_witness :
    (encodeComplete (run [Event.cameraOk, Event.start]) "A").frameSequence =
      (run [Event.cameraOk, Event.start]).frameSequence ++ ["A"] ∧
    (step (run [Event.cameraOk, Event.start]) Event.tick).frameSequence.take
        (run [Event.cameraOk, Event.start]).frameSequence.length =
      (run [Event.cameraOk, Event.start]).frameSequence ∧
    (step (run [Event.cameraOk, Event.start]) Event.tick).frameSequence.length ≤
      (run [Event.cameraOk, Event.start]).frameSequence.length + 1 :=
  frames_append_only (run [Event.cameraOk, Event.start]) "A" Event.tick
    (by decide) (by decide)

/-- Claim C9: when the mount-time camera request fails, the user-facing
device-access message is set and nothing else of the session changes (still
idle, no frames, no call, no stream, no retry), and the start action is a
no-op on any state with no bound stream. -/
theorem camera_failure_idle (s u : CaptureSession)
    (hc : s.cameraResolved = false) (hu : u.streamBound = false) :
    (setupCameraFail s).error = some deviceAccessErrorMsg ∧
    (setupCameraFail s).isRecording = s.isRecording ∧
    (setupCameraFail s).isProcessing = s.isProcessing ∧
    (setupCameraFail s).frameSequence = s.frameSequence ∧
    (setupCameraFail s).calls = s.calls ∧
    (setupCameraFail s).streamBound = s.streamBound ∧
    startRecording u = u := by
  refine ⟨?_, ?_, ?_, ?_, ?_, ?_, ?_⟩ <;>
    simp [setupCameraFail, hc, startRecording, hu]

/-- Witness for C9 at the mount state. -/
theorem camera_failure_idle_witness :
    (setupCameraFail initialState).error = some deviceAccessErrorMsg ∧
    (setupCameraFail initialState).isRecording = initialState.isRecording ∧
    (setupCameraFail initialState).isProcessing = initialState.isProcessing ∧
    (setupCameraFail initialState).frameSequence =
      initialState.frameSequence ∧
    (setupCameraFail initialState).calls = initialState.calls ∧
    (setupCameraFail initialState).streamBound = initialState.streamBound ∧
    startRecording initialState = initialState :=
  camera_failure_idle initialState initialState rfl rfl

end Sign
